import Mathlib

/-!
Shallow embedding of the core of the abcresearch repository:

- scripts/graphify_images.py : vision classification client
  (call_gpt_vision_json), sandboxed code executor (execute_generated_code
  with _exec_child), per-image processing (_process) and the batch
  orchestrator (detect_and_reconstruct_graphs);
- extraction_scripts/datalab_marker.py : polling client
  (poll_until_complete) and the structured-extraction scan of main;
- api/extract_tables.py : extract_tables_from_pdf.

Machine-level effects (HTTP, the filesystem, wall-clock time, child
processes) are passed in explicitly: streams of network responses, an
abstract behaviour of the untrusted child process, and per-iteration
latencies for the poll loop. Python exceptions are modelled explicitly,
keeping the distinction between SystemExit (a BaseException, which an
"except Exception" handler does not catch) and ordinary Exception.
-/

/-- State of the request body tracked across retries of
call_gpt_vision_json: whether the optional temperature and
response_format fields are still present, and whether the
"Respond with strict JSON only." system message was prepended after
removing response_format. -/
structure GptBody where
  hasTemperature : Bool
  hasResponseFormat : Bool
  strictJsonMsg : Bool
deriving DecidableEq, Repr

/-- Error object of a JSON error reply, as read by the script via
data.get("error", {}): its "param" and "message" entries. -/
structure ApiErr where
  param : Option String
  message : String
deriving DecidableEq, Repr

/-- Fields of the parsed assistant JSON that the script consults. -/
structure GptParsed where
  is_graph : Option Bool
  graph_type : Option String
  python_code : Option String
  error : Option String
deriving DecidableEq, Repr

/-- Assistant message content of a success-status reply: absent or falsy,
present but not valid JSON, or parsed into the consulted fields. -/
inductive GptContent
  | missing
  | unparsable
  | parsed (j : GptParsed)
deriving DecidableEq, Repr

/-- Outcome of one HTTP attempt as observed by call_gpt_vision_json:
a transport timeout, a response whose body resp.json() cannot parse,
or a JSON reply with a status code, error object and message content. -/
inductive NetResponse
  | timeout
  | nonJson (status : Nat)
  | reply (status : Nat) (err : ApiErr) (content : GptContent)
deriving DecidableEq, Repr

/-- The distinct failure exits of call_gpt_vision_json. -/
inductive FailReason
  | timeoutExhausted
  | httpStatusError (status : Nat)
  | nonJsonResponse (status : Nat)
  | apiErrorShimExhausted
  | apiErrorAfterRetries
  | apiErrorImmediate
  | emptyContent
  | contentParseFailed
  | loopFellThrough
deriving DecidableEq, Repr

/-- Python exception class of each failure: every raise in
call_gpt_vision_json is a SystemExit except resp.raise_for_status(),
which raises requests.HTTPError, an ordinary Exception. -/
inductive ExcKind
  | systemExit
  | exception
deriving DecidableEq, Repr

/-- Exception class raised for each failure reason. -/
def failKind : FailReason → ExcKind
  | .httpStatusError _ => .exception
  | _ => .systemExit

/-- Whether the first list starts with the second. -/
def charsStart : List Char → List Char → Bool
  | _, [] => true
  | [], _ :: _ => false
  | a :: as, b :: bs => a == b && charsStart as bs

/-- Whether the needle occurs contiguously inside the haystack. -/
def containsSeq (needle : List Char) : List Char → Bool
  | [] => charsStart [] needle
  | c :: t => charsStart (c :: t) needle || containsSeq needle t

/-- Whether needle occurs in hay after lowercasing hay, as in the
checks needle in message.lower() of the script. -/
def lowerContains (hay needle : String) : Bool :=
  containsSeq needle.toList (hay.toList.map Char.toLower)

/-- Condition under which the script treats an error reply as
"temperature unsupported" (source line 143). -/
def tempUnsupported (e : ApiErr) : Bool :=
  e.param == some ("temperature") ||
    (lowerContains e.message ("temperature") && lowerContains e.message ("unsupported"))

/-- Condition under which the script treats an error reply as
"response_format unsupported" (source line 152). -/
def respFmtUnsupported (e : ApiErr) : Bool :=
  e.param == some ("response_format") ||
    (lowerContains e.message ("response_format") && lowerContains e.message ("unsupported"))

/-- Sleep performed before retrying after the 1-based attempt a:
time.sleep(min(2 ** (attempt - 1), 8)). -/
def backoff (a : Nat) : Nat := min (2 ^ (a - 1)) 8

/-- Result of a run of call_gpt_vision_json: the returned parsed JSON or
the raised failure, together with the number of attempts executed, the
sleeps performed between attempts, and the final request-body state. -/
structure CallRun where
  outcome : Except FailReason GptParsed
  attempts : Nat
  sleeps : List Nat
  finalBody : GptBody

/-- The attempt loop of call_gpt_vision_json (source lines 122-182).
The fuel argument counts the remaining loop iterations; a is the 1-based
attempt number and maxA the max_attempts constant (3 at the call site,
so the fuel-exhausted case mirrors the unreachable final raise of the
source). -/
def callAux (resp : Nat → NetResponse) (maxA : Nat) : Nat → Nat → GptBody → CallRun
  | 0, _, body => ⟨.error .loopFellThrough, 0, [], body⟩
  | fuel + 1, a, body =>
    match resp (a - 1) with
    | .timeout =>
      if a = maxA then ⟨.error .timeoutExhausted, 1, [], body⟩
      else
        let r := callAux resp maxA fuel (a + 1) body
        ⟨r.outcome, r.attempts + 1, backoff a :: r.sleeps, r.finalBody⟩
    | .nonJson s =>
      if 400 ≤ s ∧ s < 600 then ⟨.error (.httpStatusError s), 1, [], body⟩
      else ⟨.error (.nonJsonResponse s), 1, [], body⟩
    | .reply s err content =>
      if 400 ≤ s then
        if tempUnsupported err then
          let body2 : GptBody := { body with hasTemperature := false }
          if a = maxA then ⟨.error .apiErrorShimExhausted, 1, [], body2⟩
          else
            let r := callAux resp maxA fuel (a + 1) body2
            ⟨r.outcome, r.attempts + 1, backoff a :: r.sleeps, r.finalBody⟩
        else if respFmtUnsupported err then
          let body2 : GptBody :=
            if body.hasResponseFormat then
              { body with hasResponseFormat := false, strictJsonMsg := true }
            else body
          if a = maxA then ⟨.error .apiErrorShimExhausted, 1, [], body2⟩
          else
            let r := callAux resp maxA fuel (a + 1) body2
            ⟨r.outcome, r.attempts + 1, backoff a :: r.sleeps, r.finalBody⟩
        else if s = 429 ∨ (500 ≤ s ∧ s < 600) then
          if a = maxA then ⟨.error .apiErrorAfterRetries, 1, [], body⟩
          else
            let r := callAux resp maxA fuel (a + 1) body
            ⟨r.outcome, r.attempts + 1, backoff a :: r.sleeps, r.finalBody⟩
        else ⟨.error .apiErrorImmediate, 1, [], body⟩
      else
        match content with
        | .missing => ⟨.error .emptyContent, 1, [], body⟩
        | .unparsable => ⟨.error .contentParseFailed, 1, [], body⟩
        | .parsed j => ⟨.ok j, 1, [], body⟩

/-- Initial request body: temperature and response_format both present
(source lines 99-119). -/
def initialGptBody : GptBody := ⟨true, true, false⟩

/-- call_gpt_vision_json as a function of the per-attempt network
responses, with max_attempts = 3 as in the source. -/
def call_gpt_vision_json (resp : Nat → NetResponse) : CallRun :=
  callAux resp 3 3 1 initialGptBody

/-- Responses on which the loop sleeps and continues rather than
terminating the call at that attempt (in non-final attempts). -/
def retryable : NetResponse → Bool
  | .timeout => true
  | .nonJson _ => false
  | .reply s err _ =>
    decide (400 ≤ s) &&
      (tempUnsupported err || respFmtUnsupported err ||
        s == 429 || (decide (500 ≤ s) && decide (s < 600)))

/-- Failure reasons raised when the final attempt was retryable, i.e.
the attempt budget was exhausted. -/
def isExhaustion : FailReason → Bool
  | .timeoutExhausted => true
  | .apiErrorShimExhausted => true
  | .apiErrorAfterRetries => true
  | _ => false

/-- Behaviour of the untrusted child process spawned by
execute_generated_code. The child either exceeds the wall-clock limit
and is killed, dies without putting a message on the queue, or runs
_exec_child to completion; in the last case execRaises states whether
exec(code) raised, definesRecreate whether a callable recreate_plot was
bound, recreateRaises whether its invocation raised, and writesFile
whether a file is present at the output path once the child is done
(generated code may write the file and still raise afterwards, or return
without ever writing it). -/
inductive ChildBehavior
  | hang (filePartial : Bool)
  | crashSilent (filePartial : Bool)
  | run (execRaises : Bool) (definesRecreate : Bool) (recreateRaises : Bool) (writesFile : Bool)
deriving DecidableEq, Repr

/-- Observable outcome of execute_generated_code: the (success, error)
pair the function returns, plus whether a file exists at the requested
output path afterwards. -/
structure ExecOutcome where
  success : Bool
  error : Option String
  fileExists : Bool
deriving DecidableEq, Repr

/-- execute_generated_code (source lines 214-232) combined with
_exec_child (source lines 190-211): timeout kills the child and reports
a timeout outcome; an empty queue reports a no-result outcome; otherwise
the one-shot child message determines (success, error). -/
def execute_generated_code : ChildBehavior → ExecOutcome
  | .hang f => ⟨false, some ("Execution timed out"), f⟩
  | .crashSilent f => ⟨false, some ("No result returned from execution"), f⟩
  | .run er df rr w =>
    if er then ⟨false, some ("Execution error"), w⟩
    else if !df then ⟨false, some ("No recreate_plot(output_path: str) found"), w⟩
    else if rr then ⟨false, some ("Execution error"), w⟩
    else ⟨true, none, w⟩

/-- One entry of the batch summary (the dict built at source lines
288-295, or the worker-error dict of lines 306-313). -/
structure BatchEntry where
  image : String
  json : Option String
  reconstructed : Option String
  is_graph : Bool
  graph_type : Option String
  error : Option String
deriving DecidableEq, Repr

/-- Python truthiness of an optional string: None and the empty string
are falsy. -/
def truthyStr : Option String → Bool
  | none => false
  | some s => s != ""

/-- Python a-or-b on optional strings, as in
result.get("error") or exec_error. -/
def pyOrStr (a b : Option String) : Option String :=
  if truthyStr a then a else b

/-- The classification dict held by _process after the try/except around
call_gpt_vision_json (source lines 266-274): an ordinary Exception is
caught and replaced by a dict with is_graph False and a populated error;
a SystemExit is not caught and keeps propagating; on success the dict
gets is_graph defaulted to False via setdefault. -/
def resultAfterCatch (call : Except FailReason GptParsed) : Except FailReason GptParsed :=
  match call with
  | .error f =>
    if failKind f = .exception then
      .ok { is_graph := some false, graph_type := none, python_code := none,
            error := some ("GPT call failed") }
    else .error f
  | .ok j => .ok { j with is_graph := some (j.is_graph.getD false) }

/-- Condition of source line 285: execution is attempted only when the
execute flag is set, the classification is_graph value is truthy and
python_code holds a string. -/
def execAttempted (call : Except FailReason GptParsed) (execute : Bool) : Bool :=
  match resultAfterCatch call with
  | .error _ => false
  | .ok r => execute && r.is_graph.getD false && r.python_code.isSome

/-- The per-image worker _process (source lines 260-297), given the
outcome of the vision call and the behaviour of the execution child.
The raw-JSON write of line 278 is modelled as succeeding. A failure
that the except clause of line 268 cannot catch propagates. -/
def process_image (img : String) (call : Except FailReason GptParsed)
    (execute : Bool) (child : ChildBehavior) : Except FailReason BatchEntry :=
  match resultAfterCatch call with
  | .error f => .error f
  | .ok r =>
    let attempted := execute && r.is_graph.getD false && r.python_code.isSome
    let eo := if attempted then some (execute_generated_code child) else none
    let reconOk := match eo with | some o => o.success | none => false
    let execErr : Option String := match eo with | some o => o.error | none => none
    .ok { image := img
          json := some (img ++ ".graph.json")
          reconstructed := if reconOk then some (img ++ ".reconstructed.png") else none
          is_graph := r.is_graph.getD false
          graph_type := r.graph_type
          error := pyOrStr r.error execErr }

/-- Entry recorded by the thread-pool branch when fut.result() raises an
ordinary Exception (source lines 305-313). -/
def workerErrorEntry (img : String) : BatchEntry :=
  ⟨img, none, none, false, none, some ("worker-error")⟩

/-- Collection loop of the thread-pool branch (source lines 299-314):
an Exception from a worker degrades to a worker-error entry, while a
SystemExit re-raised by fut.result() escapes the except Exception clause
and aborts the batch. The summary order is completion order; it is
modelled here as input order, which the length claims do not depend on. -/
def collectConcurrent : List (String × Except FailReason BatchEntry) →
    Except FailReason (List BatchEntry)
  | [] => .ok []
  | (img, r) :: rest =>
    match r with
    | .ok e => (collectConcurrent rest).map (e :: ·)
    | .error f =>
      if failKind f = .exception then
        (collectConcurrent rest).map (workerErrorEntry img :: ·)
      else .error f

/-- Sequential branch (source lines 316-317): any exception raised by
_process aborts the loop, as there is no try/except around it. -/
def collectSequential : List (String × Except FailReason BatchEntry) →
    Except FailReason (List BatchEntry)
  | [] => .ok []
  | (_, r) :: rest =>
    match r with
    | .ok e => (collectSequential rest).map (e :: ·)
    | .error f => .error f

/-- detect_and_reconstruct_graphs (source lines 241-321): truncates the
image list to max_images, dispatches each image to the per-image worker
(passed in as process, itself process_image applied to the
environment), and collects entries either through the thread pool or
sequentially. An uncaught exception aborts the run before summary.json
is written; a normal return yields the summary list. -/
def detect_and_reconstruct_graphs (images : List String) (maxImages : Option Nat)
    (concurrency : Nat) (process : String → Except FailReason BatchEntry) :
    Except FailReason (List BatchEntry) :=
  let imgs := match maxImages with
    | some n => images.take n
    | none => images
  let items := imgs.map (fun i => (i, process i))
  if 1 < concurrency then collectConcurrent items
  else collectSequential items

/-- Status field of a poll response: the two recognized strings, JSON
null (data.get("status") is None), or any other value. -/
inductive PStatus
  | processing
  | complete
  | nullStatus
  | other (s : String)
deriving DecidableEq, Repr

/-- Fields of one JSON poll response consulted by poll_until_complete. -/
structure PollResp where
  status : PStatus
  success : Bool
  error : Option String
deriving DecidableEq, Repr

/-- One poll-tick HTTP outcome: a body resp.json() cannot parse, or a
JSON reply. -/
inductive PollNet
  | nonJson (status : Nat)
  | reply (r : PollResp)
deriving DecidableEq, Repr

/-- Terminal outcomes of the poll loop. fuelOut is the sentinel of the
fuel-indexed unfolding, meaning the loop is still running after the
given number of iterations. -/
inductive PollOutcome
  | result (r : PollResp)
  | timedOut
  | protocolError (s : PStatus)
  | jobFailed (e : Option String)
  | nonJsonFail (status : Nat)
  | fuelOut
deriving DecidableEq, Repr

/-- Wall-clock time elapsed when the loop performs the timeout check of
its k-th iteration: each earlier iteration slept poll_interval_s and
then spent some request latency. -/
def elapsedAt (interval : Nat) (lat : Nat → Nat) : Nat → Nat
  | 0 => 0
  | k + 1 => elapsedAt interval lat k + (interval + lat k)

/-- The loop of poll_until_complete (source lines 105-132), unfolded for
a given number of iterations: at iteration k it times out if the elapsed
time exceeds timeout_s, otherwise sleeps, performs the GET, and then
either breaks on a complete status (checking the success flag), fails
fast on a status outside processing/complete/null, or continues. -/
def pollAux (resp : Nat → PollNet) (timeout interval : Nat) (lat : Nat → Nat) :
    Nat → Nat → PollOutcome
  | _, 0 => .fuelOut
  | k, fuel + 1 =>
    if timeout < elapsedAt interval lat k then .timedOut
    else
      match resp k with
      | .nonJson s => .nonJsonFail s
      | .reply r =>
        if r.status = .complete then
          if r.success then .result r else .jobFailed r.error
        else if r.status = .processing ∨ r.status = .nullStatus then
          pollAux resp timeout interval lat (k + 1) fuel
        else .protocolError r.status

/-- poll_until_complete as a function of the poll responses, the timeout
and interval, the per-request latencies and an iteration budget. -/
def poll_until_complete (resp : Nat → PollNet) (timeout interval : Nat)
    (lat : Nat → Nat) (fuel : Nat) : PollOutcome :=
  pollAux resp timeout interval lat 0 fuel

/-- JSON values, as far as the structured-extraction scan needs to
distinguish them: isinstance(val, (dict, list)) and everything else. -/
inductive JVal
  | obj (fields : List (String × JVal))
  | arr (elems : List JVal)
  | str (s : String)
  | num (n : Int)
  | bool (b : Bool)
  | null

/-- Whether a value satisfies isinstance(val, (dict, list)). -/
def isStructuredVal : JVal → Bool
  | .obj _ => true
  | .arr _ => true
  | _ => false

/-- The fixed ordered candidate key list of datalab_marker.py main
(source line 416). -/
def extraction_keys : List String :=
  [("json"), ("structured_output"), ("structured_data"), ("extractions"), ("extracted")]

/-- The scan loop of source lines 419-423: the first key whose value is
a dict or list wins; keys that are absent or hold other values are
skipped. -/
def findExtraction (result : String → Option JVal) : List String → Option JVal
  | [] => none
  | k :: rest =>
    match result k with
    | some v => if isStructuredVal v then some v else findExtraction result rest
    | none => findExtraction result rest

/-- The structured-extraction materialization of main (source lines
415-426): performed only when a schema file was supplied; the persisted
artifact content is the found value (save_json writes it as JSON, and
parsing that artifact returns the same value). -/
def materializeExtraction (schemaSupplied : Bool) (result : String → Option JVal) :
    Option JVal :=
  if schemaSupplied then findExtraction result extraction_keys else none

/-- Python str.strip() on a character list: leading and trailing
whitespace removed. -/
def stripChars (l : List Char) : List Char :=
  ((l.dropWhile Char.isWhitespace).reverse.dropWhile Char.isWhitespace).reverse

/-- Python str.strip() as used on table cells. -/
def pyStrip (s : String) : String :=
  String.mk (stripChars s.toList)

/-- Cell normalization of extract_tables_from_pdf (source lines
124-128): a present cell is stringified and stripped, an absent cell
becomes the empty string. -/
def cleanCell : Option String → String
  | some s => pyStrip s
  | none => ""

/-- Row cleaning of source lines 121-129: empty rows are skipped and the
cells of the remaining rows are normalized. -/
def cleanedTable (t : List (List (Option String))) : List (List String) :=
  (t.filter (fun r => !r.isEmpty)).map (fun r => r.map cleanCell)

/-- One table record of the extraction result (source lines 132-138). -/
structure TableRec where
  page_number : Nat
  table_number : Nat
  data : List (List String)
  rows : Nat
  columns : Nat
deriving DecidableEq, Repr

/-- Column count of source line 137: the length of the first cleaned row
(0 for an empty table, a case the guard makes unreachable). -/
def tableColumns : List (List String) → Nat
  | [] => 0
  | r :: _ => r.length

/-- extract_tables_from_pdf (source lines 108-140) over the grids the
pdfplumber collaborator returns: pages, each a list of tables, each a
grid of optional cells. Page and table numbers are 1-based. -/
def extract_tables_from_pdf (pages : List (List (List (List (Option String))))) :
    List TableRec :=
  pages.enum.flatMap (fun pe =>
    pe.2.enum.flatMap (fun te =>
      if te.2.isEmpty then []
      else
        let ct := cleanedTable te.2
        if ct.isEmpty then []
        else [{ page_number := pe.1 + 1, table_number := te.1 + 1,
                data := ct, rows := ct.length, columns := tableColumns ct }]))

theorem le_elapsedAt (interval : Nat) (lat : Nat → Nat)
    (h : 0 < interval ∨ ∀ j, 0 < lat j) : ∀ k, k ≤ elapsedAt interval lat k := by
  intro k
  induction k with
  | zero => simp [elapsedAt]
  | succ n ih =>
    rw [elapsedAt]
    rcases h with h | h
    · omega
    · have := h n
      omega

theorem pollAux_ne_fuelOut (resp : Nat → PollNet) (timeout interval : Nat)
    (lat : Nat → Nat) :
    ∀ fuel k, timeout < elapsedAt interval lat (k + fuel) →
      pollAux resp timeout interval lat k (fuel + 1) ≠ .fuelOut := by
  intro fuel
  induction fuel with
  | zero =>
    intro k h
    rw [pollAux, if_pos (by simpa using h)]
    simp
  | succ n ih =>
    intro k h
    rw [pollAux]
    split
    · simp
    · rcases hq : resp k with s | r
      · simp only [hq]
        simp
      · simp only [hq]
        split
        · split <;> simp
        · split
          · refine ih (k + 1) ?_
            have he : k + 1 + n = k + (n + 1) := by omega
            rw [he]
            exact h
          · simp

/-- C5: poll_until_complete returns a JobResult only when the observed
status is complete and the success flag is true; a complete status with
success false fails carrying the remote error message; a status outside
processing, complete and null fails fast at that very poll tick with a
protocol error and no retry; hence the caller never receives a
processing-status result. -/
theorem c5_poll_result_policy (resp : Nat → PollNet) (timeout interval : Nat)
    (lat : Nat → Nat) :
    (∀ fuel k r, pollAux resp timeout interval lat k fuel = .result r →
      r.status = .complete ∧ r.success = true) ∧
    (∀ fuel k r, ¬ timeout < elapsedAt interval lat k → resp k = .reply r →
      r.status = .complete → r.success = false →
      pollAux resp timeout interval lat k (fuel + 1) = .jobFailed r.error) ∧
    (∀ fuel k r s, ¬ timeout < elapsedAt interval lat k → resp k = .reply r →
      r.status = .other s →
      pollAux resp timeout interval lat k (fuel + 1) = .protocolError (.other s)) := by
  refine ⟨?_, ?_, ?_⟩
  · intro fuel
    induction fuel with
    | zero =>
      intro k r h
      simp [pollAux] at h
    | succ n ih =>
      intro k r h
      rw [pollAux] at h
      split at h
      · simp at h
      · rcases hq : resp k with s | q
        · simp only [hq] at h
          simp at h
        · simp only [hq] at h
          split at h
          · split at h
            · rename_i hst hsu
              cases h
              exact ⟨hst, hsu⟩
            · simp at h
          · split at h
            · exact ih (k + 1) r h
            · simp at h
  · intro fuel k r h1 h2 h3 h4
    rw [pollAux, if_neg h1]
    simp only [h2]
    rw [if_pos h3, if_neg (by rw [h4]; simp)]
  · intro fuel k r s h1 h2 h3
    rw [pollAux, if_neg h1]
    simp only [h2]
    rw [if_neg (by rw [h3]; simp), if_neg (by rw [h3]; simp), h3]

/-- Witness for c5_poll_result_policy at a concrete run: a first poll
already complete and successful. -/
theorem c5_poll_result_policy_witness :
    (PollResp.mk .complete true none).status = .complete ∧
      (PollResp.mk .complete true none).success = true :=
  (c5_poll_result_policy (fun _ => .reply ⟨.complete, true, none⟩) 10 1
    (fun _ => 0)).1 3 0 (PollResp.mk .complete true none) (by rfl)

/-- C6: the poll loop terminates. As long as each loop iteration takes
positive time (the interval is positive, or every request latency is),
a budget of timeout + 2 iterations is never exhausted: the loop has
returned or raised by then, so it cannot poll indefinitely. -/
theorem c6_poll_terminates (resp : Nat → PollNet) (timeout interval : Nat)
    (lat : Nat → Nat) (h : 0 < interval ∨ ∀ j, 0 < lat j) :
    poll_until_complete resp timeout interval lat (timeout + 2) ≠ .fuelOut := by
  have hb : timeout < elapsedAt interval lat (0 + (timeout + 1)) := by
    rw [Nat.zero_add]
    have := le_elapsedAt interval lat h (timeout + 1)
    omega
  exact pollAux_ne_fuelOut resp timeout interval lat (timeout + 1) 0 hb

/-- Witness for c6_poll_terminates: a server that forever reports
processing, with timeout 3 and interval 1. -/
theorem c6_poll_terminates_witness :
    poll_until_complete (fun _ => .reply ⟨.processing, false, none⟩) 3 1
      (fun _ => 0) 5 ≠ .fuelOut :=
  c6_poll_terminates (fun _ => .reply ⟨.processing, false, none⟩) 3 1
    (fun _ => 0) (Or.inl (by decide))

/-- C7 counterexample: the claim that success=true implies the output
artifact exists, and success=false implies it does not, fails in both
directions. A child whose recreate_plot returns without writing the file
yields success=true with no file, and a child whose recreate_plot writes
the file and then raises yields success=false with the file present. -/
theorem c7_counterexample :
    (execute_generated_code (.run false true false false)).success = true ∧
    (execute_generated_code (.run false true false false)).fileExists = false ∧
    (execute_generated_code (.run false true true true)).success = false ∧
    (execute_generated_code (.run false true true true)).fileExists = true :=
  ⟨rfl, rfl, rfl, rfl⟩


/-- C7 amended: the success flag of execute_generated_code reflects only
the child report, it is true exactly when the child finished within the
timeout, exec(code) did not raise, a callable recreate_plot existed and
its invocation did not raise; the error field is populated exactly on
failure (timeout, silent crash, in-child exception or missing entry
point). No relation to file existence at the output path is checked or
guaranteed in either direction. -/
theorem c7_success_reflects_child_report (b : ChildBehavior) :
    ((execute_generated_code b).success = true ↔
      ∃ w, b = .run false true false w) ∧
    ((execute_generated_code b).success = false ↔
      (execute_generated_code b).error.isSome = true) := by
  cases b with
  | hang f => simp [execute_generated_code]
  | crashSilent f => simp [execute_generated_code]
  | run er df rr w => cases er <;> cases df <;> cases rr <;> simp [execute_generated_code]

/-- C9 counterexample: the scan persists the first value that is a dict
or list even when it is empty. With the response mapping "json" to the
empty object and "structured_output" to a non-empty object, the
persisted extraction artifact is the empty object, not the first
non-empty structured value. -/
theorem c9_counterexample :
    materializeExtraction true (fun k =>
        if k = ("json") then some (JVal.obj [])
        else if k = ("structured_output") then some (JVal.obj [(("a"), JVal.num 1)])
        else none) = some (JVal.obj []) ∧
    (fun k =>
        if k = ("json") then some (JVal.obj [])
        else if k = ("structured_output") then some (JVal.obj [(("a"), JVal.num 1)])
        else none) ("structured_output") = some (JVal.obj [(("a"), JVal.num 1)]) := by
  constructor
  · rfl
  · rfl

theorem findExtraction_cons_none (result : String → Option JVal) (k0 : String)
    (rest : List String) (h : result k0 = none) :
    findExtraction result (k0 :: rest) = findExtraction result rest := by
  rw [findExtraction, h]

theorem findExtraction_cons_some (result : String → Option JVal) (k0 : String)
    (rest : List String) (w0 : JVal) (h : result k0 = some w0) :
    findExtraction result (k0 :: rest) =
      if isStructuredVal w0 = true then some w0 else findExtraction result rest := by
  rw [findExtraction, h]

theorem findExtraction_eq_some_iff (result : String → Option JVal) :
    ∀ (ks : List String) (v : JVal),
      findExtraction result ks = some v ↔
        ∃ pre k post, ks = pre ++ k :: post ∧ result k = some v ∧
          isStructuredVal v = true ∧
          ∀ k2 ∈ pre, ∀ w, result k2 = some w → isStructuredVal w = false := by
  intro ks
  induction ks with
  | nil =>
    intro v
    simp [findExtraction]
  | cons k0 rest ih =>
    intro v
    rcases hq : result k0 with _ | w0
    · rw [findExtraction_cons_none result k0 rest hq]
      constructor
      · intro h
        rcases (ih v).mp h with ⟨pre, k, post, hks, hres, hstr, hpre⟩
        refine ⟨k0 :: pre, k, post, by rw [hks, List.cons_append], hres, hstr, ?_⟩
        intro k2 hk2 w hw
        rcases List.mem_cons.mp hk2 with h2 | h2
        · subst h2
          rw [hq] at hw
          cases hw
        · exact hpre k2 h2 w hw
      · intro ⟨pre, k, post, hks, hres, hstr, hpre⟩
        rcases pre with _ | ⟨p0, pre2⟩
        · simp only [List.nil_append] at hks
          injection hks with hk0 hrest
          subst hk0
          rw [hq] at hres
          cases hres
        · rw [List.cons_append] at hks
          injection hks with hk0 hks2
          subst hk0
          refine (ih v).mpr ⟨pre2, k, post, hks2, hres, hstr, ?_⟩
          intro k2 hk2 w hw
          exact hpre k2 (List.mem_cons_of_mem _ hk2) w hw
    · rw [findExtraction_cons_some result k0 rest w0 hq]
      by_cases hs : isStructuredVal w0 = true
      · rw [if_pos hs]
        constructor
        · intro h
          injection h with h
          subst h
          exact ⟨[], k0, rest, rfl, hq, hs, by simp⟩
        · intro ⟨pre, k, post, hks, hres, hstr, hpre⟩
          rcases pre with _ | ⟨p0, pre2⟩
          · simp only [List.nil_append] at hks
            injection hks with hk0 hrest
            subst hk0
            rw [hq] at hres
            injection hres with hres
            rw [hres]
          · rw [List.cons_append] at hks
            injection hks with hk0 hks2
            subst hk0
            exact absurd (hpre k0 (by simp) w0 hq) (by rw [hs]; simp)
      · rw [if_neg hs]
        have hs0 : isStructuredVal w0 = false := by
          cases hval : isStructuredVal w0
          · rfl
          · exact absurd hval hs
        constructor
        · intro h
          rcases (ih v).mp h with ⟨pre, k, post, hks, hres, hstr, hpre⟩
          refine ⟨k0 :: pre, k, post, by rw [hks, List.cons_append], hres, hstr, ?_⟩
          intro k2 hk2 w hw
          rcases List.mem_cons.mp hk2 with h2 | h2
          · subst h2
            rw [hq] at hw
            injection hw with hw
            rw [← hw]
            exact hs0
          · exact hpre k2 h2 w hw
        · intro ⟨pre, k, post, hks, hres, hstr, hpre⟩
          rcases pre with _ | ⟨p0, pre2⟩
          · simp only [List.nil_append] at hks
            injection hks with hk0 hrest
            subst hk0
            rw [hq] at hres
            injection hres with hres
            subst hres
            exact absurd hstr (by rw [hs0]; simp)
          · rw [List.cons_append] at hks
            injection hks with hk0 hks2
            subst hk0
            refine (ih v).mpr ⟨pre2, k, post, hks2, hres, hstr, ?_⟩
            intro k2 hk2 w hw
            exact hpre k2 (List.mem_cons_of_mem _ hk2) w hw

/-- C9 amended: when a schema was supplied, the scan persists the value
of the first candidate key (in the fixed order json, structured_output,
structured_data, extractions, extracted) holding a dict or list, empty
or not, and that persisted artifact content equals the response value at
that key; earlier candidate keys hold no dict or list. When no schema
was supplied, no extraction artifact is written. -/
theorem c9_extraction_scan (result : String → Option JVal) (v : JVal) :
    materializeExtraction false result = none ∧
    (materializeExtraction true result = some v ↔
      ∃ pre k post, extraction_keys = pre ++ k :: post ∧ result k = some v ∧
        isStructuredVal v = true ∧
        ∀ k2 ∈ pre, ∀ w, result k2 = some w → isStructuredVal w = false) := by
  constructor
  · rfl
  · rw [materializeExtraction, if_pos rfl]
    exact findExtraction_eq_some_iff result extraction_keys v

/-- C10: every table record produced by extract_tables_from_pdf has a
non-empty data list with no empty rows, every row the image under cell
normalization (stripped strings, absent cells becoming the empty string)
of a non-empty raw row, rows equal to the number of data rows and
columns equal to the length of the first row only. The concrete ragged
input shows that the column count is not validated against the remaining
rows: the second row keeps length 1 while columns is 2. -/
theorem c10_table_record_shape :
    (∀ pages t, t ∈ extract_tables_from_pdf pages →
      t.data ≠ [] ∧ (∀ row ∈ t.data, row ≠ []) ∧
      (∀ row ∈ t.data, ∃ raw, raw ≠ [] ∧ row = raw.map cleanCell) ∧
      t.rows = t.data.length ∧ t.columns = (t.data.headD []).length) ∧
    extract_tables_from_pdf [[[[some (" a "), some ("b")], [none]]]] =
      [{ page_number := 1, table_number := 1, data := [[("a"), ("b")], [("")]],
         rows := 2, columns := 2 }] := by
  constructor
  · intro pages t ht
    rw [extract_tables_from_pdf] at ht
    rw [List.mem_flatMap] at ht
    obtain ⟨pe, hpe, ht⟩ := ht
    rw [List.mem_flatMap] at ht
    obtain ⟨te, hte, ht⟩ := ht
    split at ht
    · simp at ht
    · dsimp only at ht
      split at ht
      · simp at ht
      · rename_i hraw hct
        rw [List.mem_singleton] at ht
        subst ht
        have hdata : cleanedTable te.2 ≠ [] := by
          intro hnil
          rw [hnil] at hct
          simp at hct
        have hrow : ∀ row ∈ cleanedTable te.2, ∃ raw, raw ≠ [] ∧ row = raw.map cleanCell := by
          intro row hr
          rw [cleanedTable, List.mem_map] at hr
          obtain ⟨raw, hrawmem, hmap⟩ := hr
          rw [List.mem_filter] at hrawmem
          refine ⟨raw, ?_, hmap.symm⟩
          have := hrawmem.2
          intro hnil
          rw [hnil] at this
          simp at this
        refine ⟨hdata, ?_, hrow, rfl, ?_⟩
        · intro row hr
          obtain ⟨raw, hrawne, hmap⟩ := hrow row hr
          rw [hmap]
          simp [hrawne]
        · rcases hcase : cleanedTable te.2 with _ | ⟨r0, rest⟩
          · exact absurd hcase hdata
          · simp [tableColumns, hcase]
  · rfl


/-- C1 fails on the code: every designed failure of call_gpt_vision_json
is raised as SystemExit, which the except Exception clauses of _process
and of the thread-pool collection loop cannot catch, so a per-item
classification failure aborts the whole batch instead of being captured
as a BatchEntry with a populated error. With two input images whose
vision calls time out on all three attempts, the orchestrator propagates
the SystemExit (in both the concurrent and the sequential branch) and no
summary of length two is produced; had the same failure been an ordinary
Exception, the intended worker-error entries would have been collected. -/
theorem c1_batch_aborts_on_vision_failure :
    detect_and_reconstruct_graphs [("a.png"), ("b.png")] none 3
      (fun img => process_image img (call_gpt_vision_json (fun _ => .timeout)).outcome
        false (.run false true false true)) = .error .timeoutExhausted ∧
    detect_and_reconstruct_graphs [("a.png"), ("b.png")] none 1
      (fun img => process_image img (call_gpt_vision_json (fun _ => .timeout)).outcome
        false (.run false true false true)) = .error .timeoutExhausted ∧
    failKind .timeoutExhausted = .systemExit ∧
    detect_and_reconstruct_graphs [("a.png"), ("b.png")] none 3
      (fun _ => .error (.httpStatusError 500)) =
      .ok [workerErrorEntry ("a.png"), workerErrorEntry ("b.png")] :=
  ⟨rfl, rfl, rfl, rfl⟩

/-- C2 fails on the code: a classification request whose remote vision
call times out on all three attempts makes call_gpt_vision_json raise
SystemExit, which the except Exception clause of _process does not
catch: the failure is raised past the component boundary instead of
producing a ClassificationResult with is_graph false and a populated
error. By contrast, a failure raised as an ordinary Exception (the
HTTPError of a non-JSON 500 reply) is captured as intended. -/
theorem c2_vision_failure_escapes_process :
    (call_gpt_vision_json (fun _ => .timeout)).outcome = .error .timeoutExhausted ∧
    failKind .timeoutExhausted = .systemExit ∧
    process_image ("img") (call_gpt_vision_json (fun _ => .timeout)).outcome true
      (.run false true false true) = .error .timeoutExhausted ∧
    (call_gpt_vision_json (fun _ => .nonJson 500)).outcome = .error (.httpStatusError 500) ∧
    process_image ("img") (.error (.httpStatusError 500)) true (.run false true false true) =
      .ok { image := ("img"), json := some ("img.graph.json"), reconstructed := none,
            is_graph := false, graph_type := none, error := some ("GPT call failed") } :=
  ⟨rfl, rfl, rfl, rfl, rfl⟩

/-- C8: in the per-image processing step, when _process returns an
entry, the reconstruction field of the entry is populated if and only if
execution was attempted and succeeded, and execution is attempted only
when the execute flag is set, the classification is_graph value is true
and generated code text is present. -/
theorem c8_reconstruction_iff_attempt_succeeded (img : String)
    (call : Except FailReason GptParsed) (execute : Bool)
    (child : ChildBehavior) (e : BatchEntry)
    (h : process_image img call execute child = .ok e) :
    (e.reconstructed.isSome =
      (execAttempted call execute && (execute_generated_code child).success)) ∧
    (execAttempted call execute = true →
      execute = true ∧ ∃ r, resultAfterCatch call = .ok r ∧
        r.is_graph.getD false = true ∧ r.python_code.isSome = true) := by
  rcases hr : resultAfterCatch call with f | r
  · rw [process_image, hr] at h
    cases h
  · rw [process_image, hr] at h
    dsimp only at h
    have hA : execAttempted call execute =
        (execute && r.is_graph.getD false && r.python_code.isSome) := by
      rw [execAttempted, hr]
    cases hatt : (execute && r.is_graph.getD false && r.python_code.isSome) with
    | false =>
      rw [hatt] at h
      simp at h
      subst h
      refine ⟨?_, ?_⟩
      · rw [hA, hatt]
        simp
      · intro hcontra
        rw [hA, hatt] at hcontra
        cases hcontra
    | true =>
      rw [hatt] at h
      simp at h
      subst h
      refine ⟨?_, ?_⟩
      · rw [hA, hatt]
        cases hsucc : (execute_generated_code child).success <;> simp [hsucc]
      · intro _
        have h3 := hatt
        rw [Bool.and_assoc] at h3
        rcases Bool.and_eq_true_iff.mp h3 with ⟨he, hrest⟩
        rcases Bool.and_eq_true_iff.mp hrest with ⟨hg, hc⟩
        exact ⟨he, r, rfl, hg, hc⟩

/-- Witness for c8_reconstruction_iff_attempt_succeeded at a concrete
run: a graph-positive classification with code, execute set and a clean
child run, whose entry carries a reconstruction path. -/
theorem c8_reconstruction_iff_attempt_succeeded_witness :
    ((BatchEntry.mk ("x") (some ("x.graph.json")) (some ("x.reconstructed.png"))
        true (some ("bar")) none).reconstructed.isSome =
      (execAttempted (.ok ⟨some true, some ("bar"), some ("pc"), none⟩) true &&
        (execute_generated_code (.run false true false true)).success)) ∧
    (execAttempted (.ok ⟨some true, some ("bar"), some ("pc"), none⟩) true = true →
      true = true ∧ ∃ r, resultAfterCatch (.ok ⟨some true, some ("bar"), some ("pc"), none⟩) = .ok r ∧
        r.is_graph.getD false = true ∧ r.python_code.isSome = true) :=
  c8_reconstruction_iff_attempt_succeeded ("x")
    (.ok ⟨some true, some ("bar"), some ("pc"), none⟩) true (.run false true false true)
    (BatchEntry.mk ("x") (some ("x.graph.json")) (some ("x.reconstructed.png"))
      true (some ("bar")) none) (by rfl)

/-- C4: when an attempt of the vision call receives an error reply of
status at least 400 that the script recognizes as reporting an
unsupported temperature field, the field is removed from the request
body, one backoff sleep is performed and the loop continues, consuming
one of the 3 attempts; if the next attempt succeeds, the call completes
on attempt 2 of 3 with the parsed reply and with temperature absent from
the final body. Symmetrically for the response_format field (checked
only when the temperature condition did not fire, matching the source
order), whose removal also prepends the strict-JSON system message. -/
theorem c4_unsupported_param_shim (resp : Nat → NetResponse) (s : Nat)
    (err err2 : ApiErr) (c : GptContent) (j : GptParsed)
    (h400 : 400 ≤ s)
    (h0 : resp 0 = .reply s err c)
    (h1 : resp 1 = .reply 200 err2 (.parsed j)) :
    (tempUnsupported err = true →
      (call_gpt_vision_json resp).outcome = .ok j ∧
      (call_gpt_vision_json resp).attempts = 2 ∧
      (call_gpt_vision_json resp).sleeps = [1] ∧
      (call_gpt_vision_json resp).finalBody.hasTemperature = false) ∧
    (tempUnsupported err = false → respFmtUnsupported err = true →
      (call_gpt_vision_json resp).outcome = .ok j ∧
      (call_gpt_vision_json resp).attempts = 2 ∧
      (call_gpt_vision_json resp).sleeps = [1] ∧
      (call_gpt_vision_json resp).finalBody.hasResponseFormat = false ∧
      (call_gpt_vision_json resp).finalBody.strictJsonMsg = true) := by
  constructor
  · intro htmp
    rw [call_gpt_vision_json, callAux]
    simp only [Nat.reduceSub, h0]
    rw [if_pos h400, if_pos htmp, if_neg (by omega)]
    rw [callAux]
    simp only [Nat.reduceSub, h1]
    rw [if_neg (by omega)]
    exact ⟨rfl, rfl, rfl, rfl⟩
  · intro htmp hfmt
    rw [call_gpt_vision_json, callAux]
    simp only [Nat.reduceSub, h0]
    rw [if_pos h400, if_neg (by rw [htmp]; exact Bool.false_ne_true), if_pos hfmt,
      if_neg (by omega)]
    rw [callAux]
    simp only [Nat.reduceSub, h1]
    rw [if_neg (by omega)]
    refine ⟨rfl, rfl, rfl, ?_, ?_⟩
    · rw [show (initialGptBody.hasResponseFormat = true) from rfl]
      rfl
    · rfl

/-- Witness for c4_unsupported_param_shim: the concrete scenario of the
spec, a first-attempt HTTP 400 with message Unsupported parameter:
temperature followed by a successful parsed reply. -/
theorem c4_unsupported_param_shim_witness :
    (call_gpt_vision_json (fun k =>
        match k with
        | 0 => .reply 400 ⟨none, ("Unsupported parameter: temperature")⟩ .missing
        | _ => .reply 200 ⟨none, ("")⟩
            (.parsed ⟨some true, some ("line"), some ("code"), none⟩))).outcome =
      .ok ⟨some true, some ("line"), some ("code"), none⟩ ∧
    (call_gpt_vision_json (fun k =>
        match k with
        | 0 => .reply 400 ⟨none, ("Unsupported parameter: temperature")⟩ .missing
        | _ => .reply 200 ⟨none, ("")⟩
            (.parsed ⟨some true, some ("line"), some ("code"), none⟩))).attempts = 2 ∧
    (call_gpt_vision_json (fun k =>
        match k with
        | 0 => .reply 400 ⟨none, ("Unsupported parameter: temperature")⟩ .missing
        | _ => .reply 200 ⟨none, ("")⟩
            (.parsed ⟨some true, some ("line"), some ("code"), none⟩))).sleeps = [1] ∧
    (call_gpt_vision_json (fun k =>
        match k with
        | 0 => .reply 400 ⟨none, ("Unsupported parameter: temperature")⟩ .missing
        | _ => .reply 200 ⟨none, ("")⟩
            (.parsed ⟨some true, some ("line"), some ("code"), none⟩))).finalBody.hasTemperature = false :=
  (c4_unsupported_param_shim (fun k =>
      match k with
      | 0 => .reply 400 ⟨none, ("Unsupported parameter: temperature")⟩ .missing
      | _ => .reply 200 ⟨none, ("")⟩
          (.parsed ⟨some true, some ("line"), some ("code"), none⟩))
    400 ⟨none, ("Unsupported parameter: temperature")⟩ ⟨none, ("")⟩ .missing
    ⟨some true, some ("line"), some ("code"), none⟩
    (by omega) rfl rfl).1 (by decide)

theorem callAux_step (resp : Nat → NetResponse) (maxA n a : Nat) (body : GptBody) :
    (∃ body2, callAux resp maxA (n + 1) a body =
        ⟨(callAux resp maxA n (a + 1) body2).outcome,
         (callAux resp maxA n (a + 1) body2).attempts + 1,
         backoff a :: (callAux resp maxA n (a + 1) body2).sleeps,
         (callAux resp maxA n (a + 1) body2).finalBody⟩ ∧
        retryable (resp (a - 1)) = true ∧ a ≠ maxA) ∨
    ((callAux resp maxA (n + 1) a body).attempts = 1 ∧
     (callAux resp maxA (n + 1) a body).sleeps = [] ∧
     (a ≠ maxA → retryable (resp (a - 1)) = false) ∧
     (a = maxA → retryable (resp (a - 1)) = true →
       ∃ e, (callAux resp maxA (n + 1) a body).outcome = .error e ∧
         isExhaustion e = true)) := by
  rcases hq : resp (a - 1) with _ | st | ⟨st, err, content⟩
  · by_cases hl : a = maxA
    · right
      rw [callAux]
      simp only [hq]
      rw [if_pos hl]
      exact ⟨rfl, rfl, fun hne => absurd hl hne, fun _ _ => ⟨.timeoutExhausted, rfl, rfl⟩⟩
    · left
      refine ⟨body, ?_, rfl, hl⟩
      rw [callAux]
      simp only [hq]
      rw [if_neg hl]
  · right
    rw [callAux]
    simp only [hq]
    split
    · exact ⟨rfl, rfl, fun _ => rfl, fun _ hc => by simp [retryable] at hc⟩
    · exact ⟨rfl, rfl, fun _ => rfl, fun _ hc => by simp [retryable] at hc⟩
  · by_cases h4 : 400 ≤ st
    · by_cases htmp : tempUnsupported err = true
      · by_cases hl : a = maxA
        · right
          rw [callAux]
          simp only [hq]
          rw [if_pos h4, if_pos htmp, if_pos hl]
          refine ⟨rfl, rfl, fun hne => absurd hl hne,
            fun _ _ => ⟨.apiErrorShimExhausted, rfl, rfl⟩⟩
        · left
          refine ⟨{ body with hasTemperature := false }, ?_, ?_, hl⟩
          · rw [callAux]
            simp only [hq]
            rw [if_pos h4, if_pos htmp, if_neg hl]
          · simp [retryable, h4, htmp]
      · have htmp0 : tempUnsupported err = false := by
          cases hv : tempUnsupported err
          · rfl
          · exact absurd hv htmp
        by_cases hfmt : respFmtUnsupported err = true
        · by_cases hl : a = maxA
          · right
            rw [callAux]
            simp only [hq]
            rw [if_pos h4, if_neg htmp, if_pos hfmt, if_pos hl]
            refine ⟨rfl, rfl, fun hne => absurd hl hne,
              fun _ _ => ⟨.apiErrorShimExhausted, rfl, rfl⟩⟩
          · left
            refine ⟨if body.hasResponseFormat then
                { body with hasResponseFormat := false, strictJsonMsg := true }
              else body, ?_, ?_, hl⟩
            · rw [callAux]
              simp only [hq]
              rw [if_pos h4, if_neg htmp, if_pos hfmt, if_neg hl]
            · simp [retryable, h4, hfmt]
        · have hfmt0 : respFmtUnsupported err = false := by
            cases hv : respFmtUnsupported err
            · rfl
            · exact absurd hv hfmt
          by_cases h59 : st = 429 ∨ (500 ≤ st ∧ st < 600)
          · by_cases hl : a = maxA
            · right
              rw [callAux]
              simp only [hq]
              rw [if_pos h4, if_neg htmp, if_neg hfmt, if_pos h59, if_pos hl]
              refine ⟨rfl, rfl, fun hne => absurd hl hne,
                fun _ _ => ⟨.apiErrorAfterRetries, rfl, rfl⟩⟩
            · left
              refine ⟨body, ?_, ?_, hl⟩
              · rw [callAux]
                simp only [hq]
                rw [if_pos h4, if_neg htmp, if_neg hfmt, if_pos h59, if_neg hl]
              · simp only [retryable, htmp0, hfmt0, Bool.false_or]
                rcases h59 with h | ⟨ha5, hb5⟩
                · simp [h, h4]
                · simp [ha5, hb5, h4]
          · have hret0 : retryable (NetResponse.reply st err content) = false := by
              simp only [retryable, htmp0, hfmt0, Bool.false_or]
              have h1 : (st == 429) = false := by
                have : st ≠ 429 := fun hc => h59 (Or.inl hc)
                simp [this]
              have h2 : (decide (500 ≤ st) && decide (st < 600)) = false := by
                by_cases hc : 500 ≤ st
                · have : ¬ st < 600 := fun hd => h59 (Or.inr ⟨hc, hd⟩)
                  simp [this]
                · simp [hc]
              rw [h1, h2]
              simp
            right
            rw [callAux]
            simp only [hq]
            rw [if_pos h4, if_neg htmp, if_neg hfmt, if_neg h59]
            exact ⟨rfl, rfl, fun _ => hret0,
              fun _ hc => by rw [hret0] at hc; cases hc⟩
    · have hret0 : retryable (NetResponse.reply st err content) = false := by
        simp [retryable, h4]
      right
      rw [callAux]
      simp only [hq]
      rw [if_neg h4]
      rcases content with _ | _ | j
      · exact ⟨rfl, rfl, fun _ => hret0, fun _ hc => by rw [hret0] at hc; cases hc⟩
      · exact ⟨rfl, rfl, fun _ => hret0, fun _ hc => by rw [hret0] at hc; cases hc⟩
      · exact ⟨rfl, rfl, fun _ => hret0, fun _ hc => by rw [hret0] at hc; cases hc⟩

theorem callAux_attempts_bounds (resp : Nat → NetResponse) (maxA : Nat) :
    ∀ fuel a body, 1 ≤ fuel →
      1 ≤ (callAux resp maxA fuel a body).attempts ∧
      (callAux resp maxA fuel a body).attempts ≤ fuel := by
  intro fuel
  induction fuel with
  | zero =>
    intro a body h
    exact absurd h (by omega)
  | succ n ih =>
    intro a body _
    rcases callAux_step resp maxA n a body with ⟨body2, hE, _, _⟩ | ⟨h1, _, _, _⟩
    · rw [hE]
      dsimp only
      rcases Nat.eq_zero_or_pos n with hn | hn
      · subst hn
        simp [callAux]
      · have hb := ih (a + 1) body2 hn
        omega
    · rw [h1]
      omega

theorem callAux_sleeps_shape (resp : Nat → NetResponse) (maxA : Nat) :
    ∀ fuel a body, fuel + a = maxA + 1 →
      (callAux resp maxA fuel a body).sleeps =
        (List.range ((callAux resp maxA fuel a body).attempts - 1)).map
          (fun k => backoff (a + k)) := by
  intro fuel
  induction fuel with
  | zero =>
    intro a body _
    simp [callAux]
  | succ n ih =>
    intro a body hinv
    rcases callAux_step resp maxA n a body with ⟨body2, hE, _, hne⟩ | ⟨h1, h2, _, _⟩
    · rw [hE]
      dsimp only
      have hn1 : 1 ≤ n := by omega
      have hb := callAux_attempts_bounds resp maxA n (a + 1) body2 hn1
      obtain ⟨m, hm⟩ : ∃ m, (callAux resp maxA n (a + 1) body2).attempts = m + 1 :=
        ⟨(callAux resp maxA n (a + 1) body2).attempts - 1, by omega⟩
      rw [ih (a + 1) body2 (by omega), hm, Nat.add_sub_cancel, Nat.add_sub_cancel,
        List.range_succ_eq_map, List.map_cons, List.map_map]
      congr 1
      apply List.map_congr_left
      intro k _
      simp only [Function.comp_apply]
      congr 1
      omega
    · rw [h1, h2]
      simp
  
theorem callAux_retryable_front (resp : Nat → NetResponse) (maxA : Nat) :
    ∀ fuel a body, 1 ≤ a → ∀ k, k + 1 < (callAux resp maxA fuel a body).attempts →
      retryable (resp (a - 1 + k)) = true := by
  intro fuel
  induction fuel with
  | zero =>
    intro a body _ k hk
    simp [callAux] at hk
  | succ n ih =>
    intro a body ha k hk
    rcases callAux_step resp maxA n a body with ⟨body2, hE, hret, _⟩ | ⟨h1, _, _, _⟩
    · rw [hE] at hk
      dsimp only at hk
      rcases k with _ | k2
      · simpa using hret
      · have hk2 : k2 + 1 < (callAux resp maxA n (a + 1) body2).attempts := by omega
        have hr := ih (a + 1) body2 (by omega) k2 hk2
        have harith : a - 1 + (k2 + 1) = a + 1 - 1 + k2 := by omega
        rw [harith]
        exact hr
    · rw [h1] at hk
      omega

theorem callAux_early_stop (resp : Nat → NetResponse) (maxA : Nat) :
    ∀ fuel a body, 1 ≤ a → fuel + a = maxA + 1 →
      (callAux resp maxA fuel a body).attempts < fuel →
      retryable (resp (a - 1 + ((callAux resp maxA fuel a body).attempts - 1))) = false := by
  intro fuel
  induction fuel with
  | zero =>
    intro a body _ _ h
    simp [callAux] at h
  | succ n ih =>
    intro a body ha hinv hlt
    rcases callAux_step resp maxA n a body with ⟨body2, hE, _, _⟩ | ⟨h1, _, hterm, _⟩
    · rw [hE] at hlt ⊢
      dsimp only at hlt ⊢
      have hlt2 : (callAux resp maxA n (a + 1) body2).attempts < n := by omega
      have hb := callAux_attempts_bounds resp maxA n (a + 1) body2 (by omega)
      have hr := ih (a + 1) body2 (by omega) (by omega) hlt2
      have harith : a - 1 + ((callAux resp maxA n (a + 1) body2).attempts + 1 - 1) =
          a + 1 - 1 + ((callAux resp maxA n (a + 1) body2).attempts - 1) := by omega
      rw [harith]
      exact hr
    · rw [h1] at hlt ⊢
      have hne : a ≠ maxA := by omega
      simpa using hterm hne

theorem callAux_exhaust (resp : Nat → NetResponse) (maxA : Nat) :
    ∀ fuel a body, 1 ≤ fuel → 1 ≤ a → fuel + a = maxA + 1 →
      (callAux resp maxA fuel a body).attempts = fuel →
      retryable (resp (a - 1 + (fuel - 1))) = true →
      ∃ e, (callAux resp maxA fuel a body).outcome = .error e ∧ isExhaustion e = true := by
  intro fuel
  induction fuel with
  | zero =>
    intro a body hf
    exact absurd hf (by omega)
  | succ n ih =>
    intro a body _ ha hinv hA hret
    rcases callAux_step resp maxA n a body with ⟨body2, hE, _, hne⟩ | ⟨h1, _, _, hexh⟩
    · rw [hE] at hA ⊢
      dsimp only at hA ⊢
      have hn1 : 1 ≤ n := by omega
      have hA2 : (callAux resp maxA n (a + 1) body2).attempts = n := by omega
      have hret2 : retryable (resp (a + 1 - 1 + (n - 1))) = true := by
        have harith : a + 1 - 1 + (n - 1) = a - 1 + (n + 1 - 1) := by omega
        rw [harith]
        exact hret
      exact ih (a + 1) body2 (by omega) (by omega) (by omega) hA2 hret2
    · rw [h1] at hA
      have hl : a = maxA := by omega
      have hr0 : retryable (resp (a - 1)) = true := by
        have harith : a - 1 + (n + 1 - 1) = a - 1 + n := by omega
        rw [harith] at hret
        have hn0 : n = 0 := by omega
        rw [hn0, Nat.add_zero] at hret
        exact hret
      exact hexh hl hr0

/-- C3 counterexample: the claim that classify retries only on transport
timeout, HTTP 429 and HTTP 5xx, and that any other 4xx fails immediately
without retry, is false. A first-attempt HTTP 400 whose error object
names the temperature parameter does not fail immediately: the call
sleeps one second, retries, and succeeds on attempt 2. -/
theorem c3_counterexample :
    (call_gpt_vision_json (fun k =>
        match k with
        | 0 => .reply 400 ⟨some ("temperature"), ("")⟩ .missing
        | _ => .reply 200 ⟨none, ("")⟩
            (.parsed ⟨some false, none, none, none⟩))).attempts = 2 ∧
    (call_gpt_vision_json (fun k =>
        match k with
        | 0 => .reply 400 ⟨some ("temperature"), ("")⟩ .missing
        | _ => .reply 200 ⟨none, ("")⟩
            (.parsed ⟨some false, none, none, none⟩))).outcome =
      .ok ⟨some false, none, none, none⟩ ∧
    (call_gpt_vision_json (fun k =>
        match k with
        | 0 => .reply 400 ⟨some ("temperature"), ("")⟩ .missing
        | _ => .reply 200 ⟨none, ("")⟩
            (.parsed ⟨some false, none, none, none⟩))).sleeps = [1] :=
  ⟨rfl, rfl, rfl⟩

/-- C3 amended: call_gpt_vision_json makes between 1 and 3 attempts and
sleeps min(2 ^ (attempt - 1), 8) seconds after every attempt that is
retried, so the sleep sequence is 1s then 2s. Every attempt before the
last is retryable, where retryable covers exactly transport timeout and
JSON error replies of status 429, 5xx, or 400-class replies recognized
as reporting an unsupported temperature or response_format field (the
compatibility shim, which consumes an attempt like any retry); any other
failure, including every other 4xx JSON error reply and non-JSON bodies
of any status, terminates the call at that attempt with no further
retry. If all 3 attempts are consumed and the final attempt was again
retryable, the call fails with one of the exhaustion errors. -/
theorem c3_retry_policy (resp : Nat → NetResponse) :
    (1 ≤ (call_gpt_vision_json resp).attempts ∧
      (call_gpt_vision_json resp).attempts ≤ 3) ∧
    (call_gpt_vision_json resp).sleeps =
      (List.range ((call_gpt_vision_json resp).attempts - 1)).map
        (fun k => min (2 ^ k) 8) ∧
    (∀ k, k + 1 < (call_gpt_vision_json resp).attempts → retryable (resp k) = true) ∧
    ((call_gpt_vision_json resp).attempts < 3 →
      retryable (resp ((call_gpt_vision_json resp).attempts - 1)) = false) ∧
    ((call_gpt_vision_json resp).attempts = 3 → retryable (resp 2) = true →
      ∃ e, (call_gpt_vision_json resp).outcome = .error e ∧ isExhaustion e = true) := by
  refine ⟨?_, ?_, ?_, ?_, ?_⟩
  · exact callAux_attempts_bounds resp 3 3 1 initialGptBody (by omega)
  · have h := callAux_sleeps_shape resp 3 3 1 initialGptBody (by omega)
    have hfun : (fun k => backoff (1 + k)) = (fun k : Nat => min (2 ^ k) 8) := by
      funext k
      rw [backoff]
      have hk : 1 + k - 1 = k := by omega
      rw [hk]
    rw [← hfun]
    exact h
  · intro k hk
    have hr := callAux_retryable_front resp 3 3 1 initialGptBody (by omega) k hk
    simpa using hr
  · intro hlt
    have hr := callAux_early_stop resp 3 3 1 initialGptBody (by omega) (by omega) hlt
    simpa using hr
  · intro hA hret
    refine callAux_exhaust resp 3 3 1 initialGptBody (by omega) (by omega) (by omega) hA ?_
    simpa using hret

/-- Witness for c3_retry_policy at a concrete run: all three attempts
time out, exhausting the budget with an exhaustion error. -/
theorem c3_retry_policy_witness :
    ∃ e, (call_gpt_vision_json (fun _ => .timeout)).outcome = .error e ∧
      isExhaustion e = true :=
  (c3_retry_policy (fun _ => .timeout)).2.2.2.2 (by decide) (by decide)

/-- Witness for c7_success_reflects_child_report at a concrete child
behaviour: a clean run that writes the file. -/
theorem c7_success_reflects_child_report_witness :
    ((execute_generated_code (.run false true false true)).success = true ↔
      ∃ w, ChildBehavior.run false true false true = .run false true false w) ∧
    ((execute_generated_code (.run false true false true)).success = false ↔
      (execute_generated_code (.run false true false true)).error.isSome = true) :=
  c7_success_reflects_child_report (.run false true false true)

/-- Witness for c9_extraction_scan at a concrete response holding a
non-empty object under the structured_output key. -/
theorem c9_extraction_scan_witness :
    materializeExtraction false (fun k =>
        if k = ("structured_output") then some (JVal.obj [(("a"), JVal.num 1)])
        else none) = none ∧
    (materializeExtraction true (fun k =>
        if k = ("structured_output") then some (JVal.obj [(("a"), JVal.num 1)])
        else none) = some (JVal.obj [(("a"), JVal.num 1)]) ↔
      ∃ pre k post, extraction_keys = pre ++ k :: post ∧
        (fun k =>
          if k = ("structured_output") then some (JVal.obj [(("a"), JVal.num 1)])
          else none) k = some (JVal.obj [(("a"), JVal.num 1)]) ∧
        isStructuredVal (JVal.obj [(("a"), JVal.num 1)]) = true ∧
        ∀ k2 ∈ pre, ∀ w,
          (fun k =>
            if k = ("structured_output") then some (JVal.obj [(("a"), JVal.num 1)])
            else none) k2 = some w → isStructuredVal w = false) :=
  c9_extraction_scan (fun k =>
      if k = ("structured_output") then some (JVal.obj [(("a"), JVal.num 1)])
      else none) (JVal.obj [(("a"), JVal.num 1)])

/-- Witness for c10_table_record_shape at the concrete two-row table the
theorem also uses for the ragged-column conjunct. -/
theorem c10_table_record_shape_witness :
    (TableRec.mk 1 1 [[("a"), ("b")], [("")]] 2 2).data ≠ [] ∧
    (∀ row ∈ (TableRec.mk 1 1 [[("a"), ("b")], [("")]] 2 2).data, row ≠ []) ∧
    (∀ row ∈ (TableRec.mk 1 1 [[("a"), ("b")], [("")]] 2 2).data,
      ∃ raw, raw ≠ [] ∧ row = raw.map cleanCell) ∧
    (TableRec.mk 1 1 [[("a"), ("b")], [("")]] 2 2).rows =
      (TableRec.mk 1 1 [[("a"), ("b")], [("")]] 2 2).data.length ∧
    (TableRec.mk 1 1 [[("a"), ("b")], [("")]] 2 2).columns =
      ((TableRec.mk 1 1 [[("a"), ("b")], [("")]] 2 2).data.headD []).length :=
  c10_table_record_shape.1 [[[[some (" a "), some ("b")], [none]]]]
    (TableRec.mk 1 1 [[("a"), ("b")], [("")]] 2 2) (by decide)
